import Mathlib

/-!
Shallow embedding of the Dotprompt type declarations (src/js/src/types.d.ts).

The source file declares only data shapes: prompt metadata, message and part
structures, tool definitions, rendering inputs, and the signatures of the
resolver and compiled-prompt functions. The embedding below mirrors those
declarations: TypeScript optional fields become `Option`, `Record<string, any>`
becomes an association list of `JsonValue`, and the structural `Part` union is
modelled by a raw record `RawPart` carrying every structurally possible field
together with one decidable recogniser per variant of the union, so that the
exclusion constraints (`text?: never` and friends) are checkable conditions.
-/

namespace Dotprompt

/-- JSON-like values, modelling the TypeScript `any` payloads that appear in
the declarations (`Record<string, any>`, schema documents, tool inputs). -/
inductive JsonValue : Type where
  | null : JsonValue
  | bool : Bool → JsonValue
  | num : Int → JsonValue
  | str : String → JsonValue
  | arr : List JsonValue → JsonValue
  | obj : List (String × JsonValue) → JsonValue

/-- A `Record<string, any>` object: a list of string-keyed JSON fields. -/
abbrev RecordAny : Type := List (String × JsonValue)

/-- Source: `export type Schema = Record<string, any>`. -/
abbrev Schema : Type := RecordAny

/-- Source: `export type JSONSchema = any`. -/
abbrev JSONSchema : Type := JsonValue

/-- First-match property lookup in a JSON object field list, as JavaScript
property access reads an object. -/
def lookupField : RecordAny → String → Option JsonValue
  | [], _ => none
  | (k, v) :: rest, key => if k = key then some v else lookupField rest key

/-- Tests whether a JSON value is the literal `true`, as required for the
`pending: true` field of `PendingPart`. -/
def jsonIsTrue : JsonValue → Bool
  | JsonValue.bool true => true
  | _ => false

/-- Source: `ToolDefinition` with required `name` and `inputSchema`, optional
`description` and `outputSchema`. -/
structure ToolDefinition where
  name : String
  description : Option String
  inputSchema : Schema
  outputSchema : Option Schema

/-- Source: `export type ToolArgument = string | ToolDefinition`. -/
def ToolArgument : Type := Sum String ToolDefinition

/-- The media payload of `MediaPart`: `{ url: string; contentType?: string }`.
The `url` field is kept raw (optional) so that the requirement that a media
payload carry a `url` string is a checkable condition of the variant. -/
structure MediaObj where
  url : Option String
  contentType : Option String

/-- The payload of `ToolRequestPart`:
`{ name: string; input?: Input; ref?: string }`, with `name` kept raw so the
requirement is a checkable condition of the variant. -/
structure ToolRequestObj where
  name : Option String
  input : Option JsonValue
  ref : Option String

/-- The payload of `ToolResponsePart`:
`{ name: string; output?: Output; ref?: string }`, with `name` kept raw so the
requirement is a checkable condition of the variant. -/
structure ToolResponseObj where
  name : Option String
  output : Option JsonValue
  ref : Option String

/-- A raw structural record carrying every field that can occur on a member of
the `Part` union (the five payload fields plus the `metadata` field inherited
from `HasMetadata`). Each variant of the union is a recogniser on this record,
mirroring the structural typing of the source where `text?: never` means the
field is absent. -/
structure RawPart where
  text : Option String
  data : Option RecordAny
  media : Option MediaObj
  toolRequest : Option ToolRequestObj
  toolResponse : Option ToolResponseObj
  metadata : Option RecordAny

/-- Source: `TextPart = Omit<EmptyPart, "text"> & \x7b text: string \x7d`. -/
def RawPart.isTextPart (p : RawPart) : Bool :=
  p.text.isSome && p.data.isNone && p.media.isNone && p.toolRequest.isNone &&
  p.toolResponse.isNone

/-- Source: `DataPart = Omit<EmptyPart, "data"> & \x7b data: Record<string, any> \x7d`. -/
def RawPart.isDataPart (p : RawPart) : Bool :=
  p.data.isSome && p.text.isNone && p.media.isNone && p.toolRequest.isNone &&
  p.toolResponse.isNone

/-- Source: `MediaPart`; the media payload must itself carry a `url` string. -/
def RawPart.isMediaPart (p : RawPart) : Bool :=
  (match p.media with | some mo => mo.url.isSome | none => false) &&
  p.text.isNone && p.data.isNone && p.toolRequest.isNone && p.toolResponse.isNone

/-- Source: `ToolRequestPart`; the payload must carry a `name` string. -/
def RawPart.isToolRequestPart (p : RawPart) : Bool :=
  (match p.toolRequest with | some o => o.name.isSome | none => false) &&
  p.text.isNone && p.data.isNone && p.media.isNone && p.toolResponse.isNone

/-- Source: `ToolResponsePart`; the payload must carry a `name` string. -/
def RawPart.isToolResponsePart (p : RawPart) : Bool :=
  (match p.toolResponse with | some o => o.name.isSome | none => false) &&
  p.text.isNone && p.data.isNone && p.media.isNone && p.toolRequest.isNone

/-- Tests whether the metadata field is present and carries `pending: true`,
as required by `PendingPart`. -/
def RawPart.hasPendingMetadata (p : RawPart) : Bool :=
  match p.metadata with
  | some m =>
    match lookupField m "pending" with
    | some v => jsonIsTrue v
    | none => false
  | none => false

/-- Source: `PendingPart = EmptyPart & \x7b metadata: \x7b pending: true; [key: string]: any \x7d \x7d`. -/
def RawPart.isPendingPart (p : RawPart) : Bool :=
  p.text.isNone && p.data.isNone && p.media.isNone && p.toolRequest.isNone &&
  p.toolResponse.isNone && p.hasPendingMetadata

/-- Source: the `Part` union of the six variants. -/
def RawPart.isPart (p : RawPart) : Bool :=
  p.isTextPart || p.isDataPart || p.isMediaPart || p.isToolRequestPart ||
  p.isToolResponsePart || p.isPendingPart

/-- Number of populated payload fields among text, data, media, toolRequest,
toolResponse. -/
def RawPart.payloadCount (p : RawPart) : Nat :=
  (if p.text.isSome then 1 else 0) + (if p.data.isSome then 1 else 0) +
  (if p.media.isSome then 1 else 0) + (if p.toolRequest.isSome then 1 else 0) +
  (if p.toolResponse.isSome then 1 else 0)

/-- Number of variant recognisers of the `Part` union that accept the record. -/
def RawPart.variantCount (p : RawPart) : Nat :=
  (if p.isTextPart then 1 else 0) + (if p.isDataPart then 1 else 0) +
  (if p.isMediaPart then 1 else 0) + (if p.isToolRequestPart then 1 else 0) +
  (if p.isToolResponsePart then 1 else 0) + (if p.isPendingPart then 1 else 0)

/-- A member of the `Part` union: a raw record accepted by some variant. -/
def Part : Type := { p : RawPart // p.isPart = true }

/-- Source: the role union `"user" | "model" | "tool" | "system"`. -/
inductive Role : Type where
  | user : Role
  | model : Role
  | tool : Role
  | system : Role

/-- Source: `Message extends HasMetadata` with a role and ordered content. -/
structure Message where
  role : Role
  content : List Part
  metadata : Option RecordAny

/-- Source: `Document extends HasMetadata` with ordered content. -/
structure Document where
  content : List Part
  metadata : Option RecordAny

/-- Source: the `input` configuration object of `PromptMetadata`. -/
structure InputConfig where
  default : Option RecordAny
  schema : Option Schema

/-- Source: the `output` configuration object of `PromptMetadata`. -/
structure OutputConfig where
  format : Option String
  schema : Option Schema

/-- Source: `PromptMetadata extends HasMetadata`, every field optional; the
`ModelConfig` type parameter is taken at its default `Record<string, any>`. -/
structure PromptMetadata where
  metadata : Option RecordAny
  name : Option String
  variant : Option String
  model : Option String
  tools : Option (List String)
  toolDefs : Option (List ToolDefinition)
  config : Option RecordAny
  input : Option InputConfig
  output : Option OutputConfig

/-- Source: `RenderedPrompt extends PromptMetadata` with required `messages`. -/
structure RenderedPrompt extends PromptMetadata where
  messages : List Message

/-- Source: `DataArgument`, every field optional; the `Variables` type
parameter is taken at its default `any`. -/
structure DataArgument where
  input : Option JsonValue
  docs : Option (List Document)
  messages : Option (List Message)
  context : Option RecordAny

/-- A JavaScript promise for a value of type `α`: it either resolves with a
value or rejects with an arbitrary reason. -/
inductive Promise (α : Type) : Type where
  | resolved : α → Promise α
  | rejected : JsonValue → Promise α

/-- The return shape `α | null | Promise<α | null>` of the resolver
signatures, with `null` modelled by `none`. -/
inductive ResolverReturn (α : Type) : Type where
  | now : Option α → ResolverReturn α
  | later : Promise (Option α) → ResolverReturn α

/-- Source: `SchemaResolver`, mapping a schema name to
`JSONSchema | null | Promise<JSONSchema | null>`. -/
def SchemaResolver : Type := String → ResolverReturn JSONSchema

/-- Source: `ToolResolver`, mapping a tool name to
`ToolDefinition | null | Promise<ToolDefinition | null>`. -/
def ToolResolver : Type := String → ResolverReturn ToolDefinition

/-- Source: `CompiledPrompt`, a function from a `DataArgument` and an optional
`PromptMetadata` override to a promise of a `RenderedPrompt`. -/
def CompiledPrompt : Type :=
  DataArgument → Option PromptMetadata → Promise RenderedPrompt

/-- A concrete text part, used as evaluation input. -/
def sampleTextPart : RawPart :=
  { text := some "hi", data := none, media := none, toolRequest := none,
    toolResponse := none, metadata := none }

/-- A concrete media part with `url` only, used as evaluation input. -/
def sampleMediaPart : RawPart :=
  { text := none, data := none,
    media := some { url := some "u", contentType := none },
    toolRequest := none, toolResponse := none, metadata := none }

/-- A concrete tool request part with `name` only, used as evaluation input. -/
def sampleToolRequestPart : RawPart :=
  { text := none, data := none, media := none,
    toolRequest := some { name := some "f", input := none, ref := none },
    toolResponse := none, metadata := none }

/-- A concrete tool response part with `name` only, used as evaluation input. -/
def sampleToolResponsePart : RawPart :=
  { text := none, data := none, media := none, toolRequest := none,
    toolResponse := some { name := some "f", output := none, ref := none },
    metadata := none }

/-- A concrete pending part, used as evaluation input. -/
def samplePendingPart : RawPart :=
  { text := none, data := none, media := none, toolRequest := none,
    toolResponse := none,
    metadata := some [("pending", JsonValue.bool true)] }

/-- A raw record whose media payload lacks a `url`, used as evaluation input. -/
def urllessMediaRaw : RawPart :=
  { text := none, data := none,
    media := some { url := none, contentType := some "image/png" },
    toolRequest := none, toolResponse := none, metadata := none }

/-- A raw record whose tool request payload lacks a `name`, used as
evaluation input. -/
def namelessToolRequestRaw : RawPart :=
  { text := none, data := none, media := none,
    toolRequest := some { name := none, input := some (JsonValue.str "x"), ref := none },
    toolResponse := none, metadata := none }

/-- A raw record whose tool response payload lacks a `name`, used as
evaluation input. -/
def namelessToolResponseRaw : RawPart :=
  { text := none, data := none, media := none, toolRequest := none,
    toolResponse := some { name := none, output := some (JsonValue.str "y"), ref := none },
    metadata := none }

/-- A tool definition with every optional field absent and an empty input
schema. -/
def emptyToolDef : ToolDefinition :=
  { name := "", description := none, inputSchema := [], outputSchema := none }

/-- A schema resolver that resolves every name to the empty schema. -/
def emptySchemaResolver : SchemaResolver :=
  fun _ => ResolverReturn.now (some (JsonValue.obj []))

/-- A tool resolver that resolves every name to `emptyToolDef`. -/
def emptyToolResolver : ToolResolver :=
  fun _ => ResolverReturn.now (some emptyToolDef)

/-- A schema resolver that resolves every name to a promise of the empty
schema. -/
def asyncEmptySchemaResolver : SchemaResolver :=
  fun _ => ResolverReturn.later (Promise.resolved (some (JsonValue.obj [])))

/-- A tool resolver that resolves every name to a promise of `emptyToolDef`. -/
def asyncEmptyToolResolver : ToolResolver :=
  fun _ => ResolverReturn.later (Promise.resolved (some emptyToolDef))

/-- The resolver result signals an unresolved name: the `null` result,
either returned directly or wrapped in a resolved promise. -/
def ResolverReturn.signalsAbsent {α : Type} (x : ResolverReturn α) : Prop :=
  x = ResolverReturn.now none ∨ x = ResolverReturn.later (Promise.resolved none)

/-- The resolver result successfully resolves to the value `v`, either
returned directly or wrapped in a resolved promise. -/
def ResolverReturn.resolvesTo {α : Type} (x : ResolverReturn α) (v : α) : Prop :=
  x = ResolverReturn.now (some v) ∨
  x = ResolverReturn.later (Promise.resolved (some v))

/-- C1: every value of the `Part` union populates exactly one payload field
among text, data, media, toolRequest, toolResponse, or populates none of them
and carries a metadata field with `pending` equal to `true`; moreover the six
variant recognisers are mutually exclusive on every raw record. -/
theorem part_payload_exclusive (p : RawPart) (h : p.isPart = true) :
    (p.payloadCount = 1 ∨ (p.payloadCount = 0 ∧ p.hasPendingMetadata = true)) ∧
    p.variantCount ≤ 1 := by
  rcases p with ⟨t, d, m, tq, ts, md⟩
  rcases t with _ | t <;> rcases d with _ | d <;> rcases m with _ | m <;>
    rcases tq with _ | tq <;> rcases ts with _ | ts <;>
    simp_all [RawPart.isPart, RawPart.isTextPart, RawPart.isDataPart,
      RawPart.isMediaPart, RawPart.isToolRequestPart, RawPart.isToolResponsePart,
      RawPart.isPendingPart, RawPart.payloadCount, RawPart.variantCount]

/-- Evaluation of `part_payload_exclusive` at the concrete text part. -/
theorem part_payload_exclusive_witness :
    RawPart.isPart sampleTextPart = true ∧
    ((RawPart.payloadCount sampleTextPart = 1 ∨
      (RawPart.payloadCount sampleTextPart = 0 ∧
       RawPart.hasPendingMetadata sampleTextPart = true)) ∧
     RawPart.variantCount sampleTextPart ≤ 1) :=
  ⟨by decide, part_payload_exclusive sampleTextPart (by decide)⟩

/-- C2: a `RenderedPrompt` consists exactly of the fields of a
`PromptMetadata` together with a required `messages` list: every rendered
prompt decomposes into those two pieces, every combination of a metadata
record and a message list is a rendered prompt, and there is a
`PromptMetadata` with every field absent (while `messages`, of list type, is
always present). -/
theorem rendered_prompt_shape :
    (∀ r : RenderedPrompt,
      r = { toPromptMetadata := r.toPromptMetadata, messages := r.messages }) ∧
    (∀ (pm : PromptMetadata) (ms : List Message),
      ∃ r : RenderedPrompt, r.toPromptMetadata = pm ∧ r.messages = ms) ∧
    (∃ pm : PromptMetadata, pm.metadata = none ∧ pm.name = none ∧
      pm.variant = none ∧ pm.model = none ∧ pm.tools = none ∧
      pm.toolDefs = none ∧ pm.config = none ∧ pm.input = none ∧
      pm.output = none) := by
  refine ⟨fun r => ?_, fun pm ms => ⟨⟨pm, ms⟩, rfl, rfl⟩,
    ⟨⟨none, none, none, none, none, none, none, none, none⟩,
      rfl, rfl, rfl, rfl, rfl, rfl, rfl, rfl, rfl⟩⟩
  rcases r with ⟨pm, ms⟩
  rfl

/-- C3: a `CompiledPrompt` applied to a `DataArgument`, with the optional
metadata override either omitted (`none`) or supplied, yields a promise of a
`RenderedPrompt`. -/
theorem compiled_prompt_contract :
    (∀ (cp : CompiledPrompt) (d : DataArgument),
      ∃ res : Promise RenderedPrompt, cp d none = res) ∧
    (∀ (cp : CompiledPrompt) (d : DataArgument) (o : PromptMetadata),
      ∃ res : Promise RenderedPrompt, cp d (some o) = res) :=
  ⟨fun cp d => ⟨cp d none, rfl⟩, fun cp d o => ⟨cp d (some o), rfl⟩⟩

/-- C4: every field of `DataArgument` is optional, so the record with all
four fields absent is a valid `DataArgument`, and a `DataArgument` has no
fields besides input, docs, messages, context. -/
theorem data_argument_all_optional :
    (∃ d : DataArgument,
      d.input = none ∧ d.docs = none ∧ d.messages = none ∧ d.context = none) ∧
    (∀ d : DataArgument,
      d = { input := d.input, docs := d.docs, messages := d.messages,
            context := d.context }) := by
  refine ⟨⟨⟨none, none, none, none⟩, rfl, rfl, rfl, rfl⟩, fun d => ?_⟩
  rcases d with ⟨i, dc, ms, c⟩
  rfl

/-- C5: for a `SchemaResolver` and a `ToolResolver`, a successfully resolved
value — returned directly or wrapped in a promise, and even the empty schema
or the empty tool definition — is distinguishable from the absent `null`
result, itself returned directly or wrapped in a promise. -/
theorem resolver_absent_distinguishable (r : SchemaResolver) (t : ToolResolver)
    (n : String) (s : JSONSchema) (td : ToolDefinition)
    (hs : ResolverReturn.resolvesTo (r n) s)
    (ht : ResolverReturn.resolvesTo (t n) td) :
    ¬ ResolverReturn.signalsAbsent (r n) ∧
    ¬ ResolverReturn.signalsAbsent (t n) := by
  simp only [ResolverReturn.resolvesTo] at hs ht
  refine ⟨fun habs => ?_, fun habs => ?_⟩
  · simp only [ResolverReturn.signalsAbsent] at habs
    rcases hs with hs | hs <;> rcases habs with habs | habs <;>
      rw [hs] at habs <;> simp at habs
  · simp only [ResolverReturn.signalsAbsent] at habs
    rcases ht with ht | ht <;> rcases habs with habs | habs <;>
      rw [ht] at habs <;> simp at habs

/-- Evaluation of `resolver_absent_distinguishable` at synchronous and
asynchronous resolvers returning the empty schema and the empty tool
definition. -/
theorem resolver_absent_distinguishable_witness :
    (¬ ResolverReturn.signalsAbsent (emptySchemaResolver "x") ∧
     ¬ ResolverReturn.signalsAbsent (emptyToolResolver "x")) ∧
    (¬ ResolverReturn.signalsAbsent (asyncEmptySchemaResolver "x") ∧
     ¬ ResolverReturn.signalsAbsent (asyncEmptyToolResolver "x")) :=
  ⟨resolver_absent_distinguishable emptySchemaResolver emptyToolResolver "x"
      (JsonValue.obj []) emptyToolDef (Or.inl rfl) (Or.inl rfl),
   resolver_absent_distinguishable asyncEmptySchemaResolver
      asyncEmptyToolResolver "x" (JsonValue.obj []) emptyToolDef
      (Or.inr rfl) (Or.inr rfl)⟩

/-- C6: every `ToolDefinition` carries a name string and an input schema,
description and output schema may be absent, and two distinct tool
definitions may share the same name (no uniqueness enforced by the type). -/
theorem tool_definition_shape :
    (∀ td : ToolDefinition,
      ∃ (n : String) (s : Schema), td.name = n ∧ td.inputSchema = s) ∧
    (∃ td : ToolDefinition, td.description = none ∧ td.outputSchema = none) ∧
    (∃ td1 td2 : ToolDefinition, td1.name = td2.name ∧ td1 ≠ td2) := by
  refine ⟨fun td => ⟨td.name, td.inputSchema, rfl, rfl⟩,
    ⟨⟨"f", none, [], none⟩, rfl, rfl⟩,
    ⟨⟨"f", none, [], none⟩, ⟨"f", some "d", [], none⟩, rfl, fun h => ?_⟩⟩
  simpa using congrArg ToolDefinition.description h

/-- C7 counterexample: the pending variant is not valid without a metadata
field. The concrete pending part is a member of the union, but the same
record with its metadata removed is accepted by no variant of `Part`. -/
theorem pending_without_metadata_not_part :
    RawPart.isPendingPart samplePendingPart = true ∧
    RawPart.isPart { samplePendingPart with metadata := none } = false := by
  decide

/-- C7 amended: for the text, data, media, toolRequest and toolResponse
variants the metadata field is optional (membership in the variant does not
depend on it), while the pending variant always requires a metadata field
carrying `pending: true`. -/
theorem part_metadata_optional_except_pending (p : RawPart) :
    RawPart.isTextPart { p with metadata := none } = RawPart.isTextPart p ∧
    RawPart.isDataPart { p with metadata := none } = RawPart.isDataPart p ∧
    RawPart.isMediaPart { p with metadata := none } = RawPart.isMediaPart p ∧
    RawPart.isToolRequestPart { p with metadata := none } =
      RawPart.isToolRequestPart p ∧
    RawPart.isToolResponsePart { p with metadata := none } =
      RawPart.isToolResponsePart p ∧
    RawPart.isPendingPart { p with metadata := none } = false := by
  rcases p with ⟨t, d, m, tq, ts, md⟩
  simp [RawPart.isTextPart, RawPart.isDataPart, RawPart.isMediaPart,
    RawPart.isToolRequestPart, RawPart.isToolResponsePart,
    RawPart.isPendingPart, RawPart.hasPendingMetadata]

/-- C8: a raw record whose tool request payload lacks a name, or whose tool
response payload lacks a name, is accepted by no variant of `Part`, while a
tool request without input and a tool response without output (names present)
are valid parts. -/
theorem tool_parts_shape (p q : RawPart) (ro : ToolRequestObj)
    (so : ToolResponseObj)
    (hp : p.toolRequest = some ro) (hro : ro.name = none)
    (hq : q.toolResponse = some so) (hso : so.name = none) :
    RawPart.isPart p = false ∧ RawPart.isPart q = false ∧
    RawPart.isPart sampleToolRequestPart = true ∧
    RawPart.isPart sampleToolResponsePart = true := by
  refine ⟨?_, ?_, by decide, by decide⟩
  · rcases p with ⟨t, d, m, tq, ts, md⟩
    simp_all [RawPart.isPart, RawPart.isTextPart, RawPart.isDataPart,
      RawPart.isMediaPart, RawPart.isToolRequestPart,
      RawPart.isToolResponsePart, RawPart.isPendingPart]
  · rcases q with ⟨t, d, m, tq, ts, md⟩
    simp_all [RawPart.isPart, RawPart.isTextPart, RawPart.isDataPart,
      RawPart.isMediaPart, RawPart.isToolRequestPart,
      RawPart.isToolResponsePart, RawPart.isPendingPart]

/-- Evaluation of `tool_parts_shape` at the concrete nameless tool request
and tool response records. -/
theorem tool_parts_shape_witness :
    RawPart.isPart namelessToolRequestRaw = false ∧
    RawPart.isPart namelessToolResponseRaw = false ∧
    RawPart.isPart sampleToolRequestPart = true ∧
    RawPart.isPart sampleToolResponsePart = true :=
  tool_parts_shape namelessToolRequestRaw namelessToolResponseRaw
    { name := none, input := some (JsonValue.str "x"), ref := none }
    { name := none, output := some (JsonValue.str "y"), ref := none }
    rfl rfl rfl rfl

/-- C9: a raw record whose media payload lacks a `url` is accepted by no
variant of `Part`, while a media payload with a `url` and no `contentType` is
a valid part. -/
theorem media_part_shape (p : RawPart) (mo : MediaObj)
    (hm : p.media = some mo) (hu : mo.url = none) :
    RawPart.isPart p = false ∧ RawPart.isPart sampleMediaPart = true := by
  refine ⟨?_, by decide⟩
  rcases p with ⟨t, d, m, tq, ts, md⟩
  simp_all [RawPart.isPart, RawPart.isTextPart, RawPart.isDataPart,
    RawPart.isMediaPart, RawPart.isToolRequestPart,
    RawPart.isToolResponsePart, RawPart.isPendingPart]

/-- Evaluation of `media_part_shape` at the concrete url-less media record. -/
theorem media_part_shape_witness :
    RawPart.isPart urllessMediaRaw = false ∧
    RawPart.isPart sampleMediaPart = true :=
  media_part_shape urllessMediaRaw
    { url := none, contentType := some "image/png" } rfl rfl

/-- C10: `PromptMetadata` (and through it `RenderedPrompt`), `Message` and
`Document` each carry the optional free-form metadata field inherited from
`HasMetadata`: any optional metadata record (absent or present) occurs as the
metadata field of a value of each of these types. -/
theorem has_metadata_field (m : Option RecordAny) :
    (∃ pm : PromptMetadata, pm.metadata = m) ∧
    (∃ msg : Message, msg.metadata = m) ∧
    (∃ d : Document, d.metadata = m) ∧
    (∃ r : RenderedPrompt, r.metadata = m) :=
  ⟨⟨⟨m, none, none, none, none, none, none, none, none⟩, rfl⟩,
   ⟨⟨Role.user, [], m⟩, rfl⟩,
   ⟨⟨[], m⟩, rfl⟩,
   ⟨⟨⟨m, none, none, none, none, none, none, none, none⟩, []⟩, rfl⟩⟩

end Dotprompt
